import Mathlib

/-!
Verification of the interview-bot core (state machine, decision engine,
flow controller, session store) against its natural-language specification.

The definitions below are a shallow embedding of the Python sources under
`backend/`:

* `backend/models/interview.py` — session data model;
* `backend/models/llm.py` — question/evaluation records;
* `backend/services/interview/state_machine.py` — transition table;
* `backend/services/interview/flow_controller.py` — orchestration and the
  code-based decision engine;
* `backend/services/interview/session_manager.py` — session store cleanup.

LLM completions, `uuid4()` draws, wall-clock timestamps and the two
`random.randint(0, 99)` draws are modelled as an explicit `Oracle` argument:
theorems quantify over all oracles, so anything proved holds for every
possible LLM output and random draw.  Python's in-place mutation plus
exceptions is modelled by state passing: an operation returns the session as
mutated up to the point of a raise together with `Except`-style success or
failure, so partially-applied mutations before an exception are preserved
exactly as in Python.
-/

namespace InterviewBot

/-- Interview lifecycle states (`models/interview.py`, `InterviewState`). -/
inductive InterviewState where
  | NOT_STARTED
  | GREETING
  | PREPLANNING
  | QUESTIONING
  | FOLLOW_UP
  | TRANSITIONING
  | CONCLUDING
  | COMPLETED
  | CANCELLED
deriving DecidableEq, Repr, Fintype

/-- Role of a chat message sender (`models/interview.py`, `ChatRole`). -/
inductive ChatRole where
  | SYSTEM
  | INTERVIEWER
  | CANDIDATE
deriving DecidableEq, Repr

/-- Evaluation confidence (`models/llm.py`, `ConfidenceLevel`). -/
inductive ConfidenceLevel where
  | LOW
  | MEDIUM
  | HIGH
deriving DecidableEq, Repr

/-- Next-action alternatives (`models/llm.py`, `QuestionAction`). -/
inductive QuestionAction where
  | ASK_FOLLOWUP
  | MOVE_TO_NEXT_QUESTION
  | END_INTERVIEW
deriving DecidableEq, Repr

/-- Modelled from the spec: `models/common.py` is absent from the sources
(only its importers are present).  Its `DifficultyLevel` enum is
reconstructed from its uses: the report generator orders the values as
EASY, MEDIUM, HARD and the topic-plan prompt offers exactly those three. -/
inductive DifficultyLevel where
  | EASY
  | MEDIUM
  | HARD
deriving DecidableEq, Repr

/-- One preplanned interview topic (`models/llm.py`, `PrePlanner`). -/
structure PrePlanner where
  serial : Nat
  skill : String
  difficulty : DifficultyLevel
deriving DecidableEq, Repr

/-- A generated interview question (`models/llm.py`, `Question`). -/
structure Question where
  id : String
  text : String
  type : String
  expected_concepts : List String
  skill : String
  difficulty : Option DifficultyLevel := none
  is_coding : Bool := false
  problem_statement : Option String := none
deriving DecidableEq, Repr

/-- Reference from an evaluation back to its question (`models/llm.py`,
`QuestionRef`). -/
structure QuestionRef where
  question_id : String
  parent_question_id : Option String := none
  question_type : String
deriving DecidableEq, Repr

/-- Structured evaluation of one candidate answer (`models/llm.py`,
`QuestionEvaluation`).  The pydantic model constrains the three scores to
the interval 0..1; the embedding leaves them as plain rationals since that
validation happens at the parsing boundary, which the oracle abstracts. -/
structure QuestionEvaluation where
  question_ref : QuestionRef
  skill : String
  correctness_score : Rat
  depth_score : Rat
  communication_score : Rat
  observed_concepts : List String
  missing_concepts : List String
  confidence_level : ConfidenceLevel
  notes : Option String := none
deriving DecidableEq, Repr

/-- Combined decision result (`models/llm.py`, `LLM_Response`). -/
structure LLM_Response where
  action : QuestionAction
  evaluation : QuestionEvaluation
  next_question : Option Question := none
  reason : Option String := none
deriving DecidableEq, Repr

/-- The `question_policy` sub-mapping of the job data.  Fields are optional
because the flow controller reads them with `dict.get` defaults. -/
structure QuestionPolicy where
  max_questions : Option Nat := none
  max_followup_per_question : Option Nat := none
deriving DecidableEq, Repr

/-- The `evaluation_rubric` sub-mapping of the job data (weights for
correctness / depth / communication). -/
structure EvaluationRubric where
  correctness : Option Rat := none
  depth : Option Rat := none
  communication : Option Rat := none
deriving DecidableEq, Repr

/-- The slice of the opaque `job_data` mapping that the core reads.  All
other keys (title, company, skills lists beyond `primary_skills`, ...) only
flow into prompt text, which the oracle abstracts. -/
structure Job where
  question_policy : Option QuestionPolicy := none
  evaluation_rubric : Option EvaluationRubric := none
  primary_skills : Option (List String) := none
deriving DecidableEq, Repr

/-- `job.get("question_policy", {})` after `job = session.job_data or {}`. -/
def getQuestionPolicy (job : Option Job) : QuestionPolicy :=
  ((job.getD {}).question_policy).getD {}

/-- `question_policy.get("max_questions", 10)`. -/
def getMaxQuestions (job : Option Job) : Nat :=
  (getQuestionPolicy job).max_questions.getD 10

/-- `question_policy.get("max_followup_per_question", 2)`. -/
def getMaxFollowups (job : Option Job) : Nat :=
  (getQuestionPolicy job).max_followup_per_question.getD 2

/-- `job.get("evaluation_rubric", {})`. -/
def getRubric (job : Option Job) : EvaluationRubric :=
  ((job.getD {}).evaluation_rubric).getD {}

/-- `weights.get("correctness", 0.5)`. -/
def correctnessWeight (job : Option Job) : Rat :=
  (getRubric job).correctness.getD 0.5

/-- `weights.get("depth", 0.3)`. -/
def depthWeight (job : Option Job) : Rat :=
  (getRubric job).depth.getD 0.3

/-- `weights.get("communication", 0.2)`. -/
def communicationWeight (job : Option Job) : Rat :=
  (getRubric job).communication.getD 0.2

/-- `job.get("primary_skills", ["General"])` (preplan fallback). -/
def getPrimarySkills (job : Option Job) : List String :=
  ((job.getD {}).primary_skills).getD ["General"]

/-- Metadata attached to interviewer messages that carry a question
(`metadata={"question_id": ..., "skill": ...}` in the flow controller). -/
structure MessageMeta where
  question_id : String
  skill : String
deriving DecidableEq, Repr

/-- A single chat message (`models/interview.py`, `ChatMessage`).  The
`uuid4()` id and `utcnow` timestamp come from the oracle. -/
structure ChatMessage where
  id : String
  role : ChatRole
  content : String
  timestamp : Nat
  metadata : Option MessageMeta := none
deriving DecidableEq, Repr

/-- One llm-call audit record as `_log_llm_call` is documented to append
(call type plus raw response; token counts and latency are opaque oracle
data and carry no control flow, so they are not tracked).  Note the
call-site bug analysed separately below: in the Python sources the record
is in fact never appended because every call to `_log_llm_call` drops the
`session` argument and raises `AttributeError`. -/
structure LogEntry where
  call_type : String
  response : String
deriving DecidableEq, Repr

/-- The central mutable session aggregate (`models/interview.py`,
`InterviewSession`).  `resume_data` is omitted: the core only folds it into
prompt text, which the oracle abstracts.  Timestamps are opaque `Nat`s. -/
structure Session where
  session_id : String := ""
  state : InterviewState := .NOT_STARTED
  job_data : Option Job := none
  preplanned_topics : List PrePlanner := []
  current_topic_index : Nat := 0
  current_question : Option Question := none
  questions_asked : Nat := 0
  followups_for_current : Nat := 0
  messages : List ChatMessage := []
  evaluations : List QuestionEvaluation := []
  llm_logs : List LogEntry := []
  created_at : Nat := 0
  started_at : Option Nat := none
  ended_at : Option Nat := none
deriving DecidableEq, Repr

/-- A fresh session as `SessionManager.create_session` builds it: all
counters zero, state NOT_STARTED. -/
def initialSession (job : Option Job) : Session := { job_data := job }

/-! ## State machine (`services/interview/state_machine.py`) -/

/-- `VALID_TRANSITIONS`: the allowed-target set for each state, as a list.
`dict.get(current, set())` makes the lookup total, which a Lean function is
by construction. -/
def VALID_TRANSITIONS : InterviewState → List InterviewState
  | .NOT_STARTED => [.GREETING, .CANCELLED]
  | .GREETING => [.PREPLANNING, .CANCELLED]
  | .PREPLANNING => [.QUESTIONING, .CANCELLED]
  | .QUESTIONING => [.FOLLOW_UP, .TRANSITIONING, .CONCLUDING, .CANCELLED]
  | .FOLLOW_UP => [.FOLLOW_UP, .TRANSITIONING, .CONCLUDING, .CANCELLED]
  | .TRANSITIONING => [.QUESTIONING, .CONCLUDING, .CANCELLED]
  | .CONCLUDING => [.COMPLETED]
  | .COMPLETED => []
  | .CANCELLED => []

/-- Exceptions that can escape the embedded core.  `invalidTransition`
is `StateMachineError(current_state, target_state)`; `indexError` is the
`IndexError` Python raises on an out-of-range `preplanned_topics` access;
`attributeError` models attribute lookups on objects of the wrong type. -/
inductive PyError where
  | invalidTransition (current target : InterviewState)
  | indexError
  | attributeError (message : String)
deriving DecidableEq, Repr

/-- `can_transition(current_state, target_state)`: pure lookup. -/
def can_transition (current target : InterviewState) : Bool :=
  (VALID_TRANSITIONS current).contains target

/-- `transition_state(session, target_state)`: returns the session (mutated
only on success) together with the raised error, if any.  The Python
function raises `StateMachineError` before touching the session, so the
error case returns the session unchanged. -/
def transition_state (s : Session) (target : InterviewState) :
    Session × Option PyError :=
  if can_transition s.state target then ({ s with state := target }, none)
  else (s, some (.invalidTransition s.state target))

/-- `is_terminal_state(state)`. -/
def is_terminal_state (state : InterviewState) : Bool :=
  state = .COMPLETED || state = .CANCELLED

/-- `is_active_state(state)`. -/
def is_active_state (state : InterviewState) : Bool :=
  state = .GREETING || state = .PREPLANNING || state = .QUESTIONING ||
  state = .FOLLOW_UP || state = .TRANSITIONING || state = .CONCLUDING

/-! ## String helpers (Python `in`, `strip`, `lower`) -/

/-- Python `needle in haystack` on character lists. -/
def listContainsSub (needle : List Char) : List Char → Bool
  | [] => needle.isEmpty
  | c :: rest => needle.isPrefixOf (c :: rest) || listContainsSub needle rest

/-- Python `str.strip()` on a character list. -/
def trimChars (cs : List Char) : List Char :=
  ((cs.dropWhile Char.isWhitespace).reverse.dropWhile Char.isWhitespace).reverse

/-- Python `s.strip().lower()`, the normal form both phrase scans use. -/
def pyLowerTrim (s : String) : List Char :=
  (trimChars s.toList).map Char.toLower

/-- Does the lowered, stripped response contain any of the phrases? -/
def containsAnyPhrase (phrases : List String) (s : String) : Bool :=
  phrases.any (fun ph => listContainsSub ph.toList (pyLowerTrim s))

/-! ## JSON extraction (`flow_controller.py`, `extract_json_from_response`) -/

def lbraceChar : Char := Char.ofNat 123

def rbraceChar : Char := Char.ofNat 125

def backtickChar : Char := Char.ofNat 96

/-- The suffix just after the first occurrence of three backticks. -/
def afterFence : List Char → Option (List Char)
  | [] => none
  | c :: rest =>
    if c = backtickChar ∧ [backtickChar, backtickChar].isPrefixOf rest then
      some (rest.drop 2)
    else afterFence rest

/-- The characters before the next occurrence of three backticks, or `none`
when the fence is never closed. -/
def untilFence : List Char → Option (List Char)
  | [] => none
  | c :: rest =>
    if c = backtickChar ∧ [backtickChar, backtickChar].isPrefixOf rest then
      some []
    else (untilFence rest).map (c :: ·)

/-- The capture of the first match of the code-block pattern
(three backticks, optional `json` tag, optional whitespace, lazily captured
body, three backticks), i.e. `re.findall(...)[0]` of the source. -/
def fenceContent (cs : List Char) : Option (List Char) :=
  match afterFence cs with
  | none => none
  | some rest =>
    let rest1 := if [ 'j', 's', 'o', 'n' ].isPrefixOf rest then rest.drop 4 else rest
    let rest2 := rest1.dropWhile Char.isWhitespace
    untilFence rest2

/-- The suffix of the list starting at the first occurrence of `target`
(`str.find` plus slicing), or `none` when absent. -/
def dropUntilChar (target : Char) : List Char → Option (List Char)
  | [] => none
  | c :: rest => if c = target then some (c :: rest) else dropUntilChar target rest

/-- The source's balance-counting loop: walk the characters keeping an
open/close counter, returning the slice up to the close that brings the
counter to zero, or `none` if the counter never returns to zero. -/
def balancedScan (opener closer : Char) : Int → List Char → List Char → Option (List Char)
  | _cnt, _acc, [] => none
  | cnt, acc, c :: rest =>
    let cnt' := if c = opener then cnt + 1 else if c = closer then cnt - 1 else cnt
    if c = closer ∧ cnt' = 0 then some (acc ++ [c])
    else balancedScan opener closer cnt' (acc ++ [c]) rest

/-- Outermost brace-delimited slice starting at the first open brace. -/
def braceSlice (cs : List Char) : Option (List Char) :=
  match dropUntilChar lbraceChar cs with
  | none => none
  | some suffix => balancedScan lbraceChar rbraceChar 0 [] suffix

/-- Outermost bracket-delimited slice starting at the first open bracket. -/
def bracketSlice (cs : List Char) : Option (List Char) :=
  match dropUntilChar '[' cs with
  | none => none
  | some suffix => balancedScan '[' ']' 0 [] suffix

/-- Steps 2-5 of the source on the already-stripped character list: return
the whole input when it starts with an open brace or bracket, otherwise the
first balanced brace slice, otherwise the first balanced bracket slice,
otherwise the input as-is. -/
def extractCore (cs : List Char) : List Char :=
  if cs.head? = some lbraceChar ∨ cs.head? = some '[' then cs
  else
    match braceSlice cs with
    | some js => js
    | none =>
      match bracketSlice cs with
      | some js => js
      | none => cs

/-- `extract_json_from_response(response)` from `flow_controller.py`:
empty input short-circuits; otherwise the input is stripped, a fenced code
block is preferred when present with non-empty stripped content, and
`extractCore` handles the remaining cases. -/
def extract_json_from_response (response : String) : String :=
  if response = "" then ""
  else
    let cs := trimChars response.toList
    match fenceContent cs with
    | some content =>
      let cleaned := trimChars content
      if cleaned ≠ [] then String.mk cleaned else String.mk (extractCore cs)
    | none => String.mk (extractCore cs)

/-- Signed brace count of one character: +1 for an open brace, -1 for a
close brace, 0 otherwise. -/
def braceDelta (c : Char) : Int :=
  if c = lbraceChar then 1 else if c = rbraceChar then -1 else 0

/-- Signed brace count of a character list. -/
def braceBal (cs : List Char) : Int := (cs.map braceDelta).sum

/-- A balanced JSON-object-shaped list: starts with an open brace, total
brace count zero, every proper non-empty prefix strictly positive.  (Purely
count-based, exactly like the scanning loop it is compared against.) -/
def BalancedBraces (o : List Char) : Prop :=
  o.head? = some lbraceChar ∧ braceBal o = 0 ∧
  ∀ pre ∈ o.inits, pre ≠ o → pre ≠ [] → 0 < braceBal pre

instance (o : List Char) : Decidable (BalancedBraces o) := by
  unfold BalancedBraces; infer_instance

/-! ## Flow controller (`services/interview/flow_controller.py`)

LLM completions are network calls whose text is unconstrained; the
embedding threads an `Oracle` carrying, for one entry-point invocation, the
completion texts, the parse outcome of each structured completion, the
`uuid4()` draws and the `random.randint(0, 99)` follow-up draw.  Theorems
quantify over every oracle. -/

/-- Oracle data for one controller entry-point call.  `eval_parsed` and
`preplan_parsed` are `none` exactly when JSON extraction or schema
validation of the corresponding completion fails; `gen_question` absorbs
the parsed-or-fallback result of `_generate_question_for_topic` (including
its 15% coding-question draw), which no control flow inspects. -/
structure Oracle where
  now : Nat := 0
  uuid : Nat → String := fun _ => ""
  question_uuid : String := ""
  greeting : String := ""
  conclusion : String := ""
  preplan_raw : String := ""
  preplan_parsed : Option (List PrePlanner) := none
  question_raw : String := ""
  gen_question : Question :=
    { id := "", text := "", type := "main", expected_concepts := [], skill := "" }
  eval_raw : String := ""
  eval_parsed : Option QuestionEvaluation := none
  followup_draw : Nat := 0

/-- `session.add_message(role, content, metadata)`. -/
def add_message (o : Oracle) (s : Session) (role : ChatRole) (content : String)
    (metadata : Option MessageMeta) : Session × ChatMessage :=
  let m : ChatMessage :=
    { id := o.uuid s.messages.length, role := role,
      content := content, timestamp := o.now, metadata := metadata }
  ({ s with messages := s.messages ++ [m] }, m)

/-- `LLMMessage` from `services/llm/base.py`. -/
structure LLMMessage where
  role : String
  content : String
deriving DecidableEq, Repr

/-- The usage dict `generate_with_usage` returns alongside the text. -/
structure Usage where
  input_tokens : Nat := 0
  output_tokens : Nat := 0
  total_tokens : Nat := 0
deriving DecidableEq, Repr

/-- The evaluation of the expression `self._log_llm_call(call_type,
messages, response, usage, latency)` exactly as every call site in
`flow_controller.py` writes it (lines 290, 326, 470, 546 and 758).  The
method signature is `(self, session, call_type, messages, response, usage,
latency_ms=0)`, so the five positional arguments shift by one: `session`
is bound to the call-type string, `call_type` to the message list,
`messages` to the response string, `response` to the usage dict and `usage`
to the latency integer.  The body then builds `prompt_messages` by
iterating over `messages` — now a string, whose characters have no `.role`
attribute — and, were the response empty, would read `usage.get(...)` on
`usage` — now an integer with no `.get` attribute.  Either way the call
raises `AttributeError` before any record is appended to any session.
Only the response string decides which message is raised; the other
parameters are unused, and the flow definitions below pass them in
abstracted form. -/
def log_llm_call_as_called (_call_type : String) (_messages : List LLMMessage)
    (response : String) (_usage : Usage) (_latency : Nat) : Except PyError Unit :=
  if response.toList ≠ [] then
    .error (.attributeError "str object has no attribute role")
  else
    .error (.attributeError "int object has no attribute get")

/-- `_generate_greeting`: the prompt is built and the completion requested
(no session field is touched), then `self._log_llm_call("greeting",
messages, response, usage, latency)` is evaluated — which raises
`AttributeError` (line 290, the shifted-argument bug) before the greeting
is returned.  The return of the response sits under the unreachable `.ok`
branch. -/
def generate_greeting (o : Oracle) (s : Session) : Session × Except PyError String :=
  match log_llm_call_as_called "greeting" [] o.greeting {} 0 with
  | .error e => (s, .error e)
  | .ok _ => (s, .ok o.greeting)

/-- The topic plan the parse of `_generate_preplan` (lines 328-345, dead
code behind the raising log call) would produce: the parsed list when the
completion parses as a JSON list (an empty or non-list payload yields the
empty plan), otherwise the fallback built from the first five primary
skills at difficulty EASY. -/
def plannedTopics (o : Oracle) (job : Option Job) : List PrePlanner :=
  match o.preplan_parsed with
  | some items => items
  | none =>
    ((getPrimarySkills job).take 5).enum.map
      (fun pr => { serial := pr.1 + 1, skill := pr.2, difficulty := .EASY })

/-- `_generate_preplan`: the completion is requested, then the
`_log_llm_call` at line 326 raises `AttributeError` before any parsing; no
session field is touched and no plan is ever returned.  The parse and its
fallback (`plannedTopics`) sit under the unreachable `.ok` branch. -/
def generate_preplan (o : Oracle) (s : Session) :
    Session × Except PyError (List PrePlanner) :=
  match log_llm_call_as_called "preplan" [] o.preplan_raw {} 0 with
  | .error e => (s, .error e)
  | .ok _ => (s, .ok (plannedTopics o s.job_data))

/-- `_generate_question_for_topic`: prompt building and the 15%
coding-question draw touch no session field, then the `_log_llm_call` at
line 470 raises `AttributeError` before any parsing or fallback.  The
parsed-or-fallback `Question` (oracle data `gen_question`) sits under the
unreachable `.ok` branch. -/
def generate_question_for_topic (o : Oracle) (s : Session) (_topic : PrePlanner)
    (_question_type : String) (_force_conceptual : Bool) :
    Session × Except PyError Question :=
  match log_llm_call_as_called "question" [] o.question_raw {} 0 with
  | .error e => (s, .error e)
  | .ok _ => (s, .ok o.gen_question)

/-- The hardcoded fallback first question used when no preplan exists
(built directly, no LLM call). -/
def fallback_first_question (o : Oracle) : Question :=
  { id := o.question_uuid,
    text := "Tell me about your experience and what interests you about this role.",
    type := "main",
    expected_concepts := ["experience", "motivation", "role_fit"],
    skill := "General",
    difficulty := some .EASY,
    is_coding := false,
    problem_statement := none }

/-- `_generate_first_question`: with no preplan the hardcoded fallback is
returned without any LLM call (and without raising); otherwise the topic
call raises at its log. -/
def generate_first_question (o : Oracle) (s : Session) :
    Session × Except PyError Question :=
  match s.preplanned_topics with
  | [] => (s, .ok (fallback_first_question o))
  | topic :: _ => generate_question_for_topic o s topic "main" false

/-- The hardcoded closing question `_generate_next_question` returns when
all topics are exhausted (built directly, no LLM call). -/
def closing_question (o : Oracle) : Question :=
  { id := o.question_uuid,
    text := "Is there anything else you\x27d like to share about your experience?",
    type := "main",
    expected_concepts := ["closing"],
    skill := "General",
    difficulty := some .EASY,
    is_coding := false,
    problem_statement := none }

/-- `_generate_next_question`.  Past the length guard the closing question
is built without any LLM call (and without raising); otherwise the source
indexes `preplanned_topics[current_topic_index]`, which is then in range
(`getD` with a junk topic keeps the function total; the topic argument
carries no control flow), and the topic call raises at its log. -/
def generate_next_question (o : Oracle) (s : Session) :
    Session × Except PyError Question :=
  if s.preplanned_topics.length ≤ s.current_topic_index then
    (s, .ok (closing_question o))
  else
    let topic := s.preplanned_topics.getD s.current_topic_index
      { serial := 0, skill := "", difficulty := .EASY }
    generate_question_for_topic o s topic
      (if s.state = .FOLLOW_UP then "followup" else "main") false

/-- The neutral fallback evaluation `_evaluate_and_decide` synthesizes when
the LLM evaluation fails JSON extraction or schema validation
(`question = session.current_question or` the empty dict, whose absent keys
yield the defaults). -/
def fallback_evaluation (o : Oracle) (question : Option Question) : QuestionEvaluation :=
  { question_ref :=
      { question_id := match question with | some q => q.id | none => o.question_uuid,
        parent_question_id := none,
        question_type := match question with | some q => q.type | none => "main" },
    skill := match question with | some q => q.skill | none => "General",
    correctness_score := 0.5,
    depth_score := 0.5,
    communication_score := 0.5,
    observed_concepts := [],
    missing_concepts := [],
    confidence_level := .LOW,
    notes := some "Fallback evaluation due to parsing error" }

/-- The candidate skip/advance phrase set of the decision engine. -/
def skip_phrases : List String := ["skip", "next", "move on", "next question"]

/-- The explicit end-request phrase set of `process_response`. -/
def explicit_end_phrases : List String :=
  ["end interview", "stop interview", "end the interview", "please end",
   "stop the interview"]

/-- The rubric-weighted score of an evaluation
(`correctness*w_c + depth*w_d + communication*w_comm`). -/
def weighted_score (job : Option Job) (ev : QuestionEvaluation) : Rat :=
  ev.correctness_score * correctnessWeight job +
  ev.depth_score * depthWeight job +
  ev.communication_score * communicationWeight job

/-- `_decide_next_action`: the code-based decision policy, rules checked in
source order.  Rule 7's follow-up generation first indexes
`preplanned_topics[current_topic_index]`, raising `IndexError` when out of
range exactly as in Python, and then calls `_generate_question_for_topic`,
whose log call raises `AttributeError` — so a reached rule 7 always raises
one way or the other and ASK_FOLLOWUP is never returned. -/
def decide_next_action (o : Oracle) (s : Session) (candidate_response : String)
    (evaluation : QuestionEvaluation) :
    Session × Except PyError (QuestionAction × String × Option Question) :=
  let max_questions := getMaxQuestions s.job_data
  let max_followups := getMaxFollowups s.job_data
  let wscore := weighted_score s.job_data evaluation
  if max_questions ≤ s.questions_asked then
    (s, .ok (.END_INTERVIEW, "Question limit reached", none))
  else if (s.preplanned_topics.length : Int) - 1 ≤ (s.current_topic_index : Int) ∧
      max_followups ≤ s.followups_for_current then
    (s, .ok (.END_INTERVIEW, "All topics covered", none))
  else if containsAnyPhrase skip_phrases candidate_response then
    (s, .ok (.MOVE_TO_NEXT_QUESTION, "Candidate requested to move on", none))
  else if max_followups ≤ s.followups_for_current then
    (s, .ok (.MOVE_TO_NEXT_QUESTION, "Follow-up limit reached", none))
  else if (trimChars candidate_response.toList).length < 30 ∨
      evaluation.confidence_level = ConfidenceLevel.LOW then
    (s, .ok (.MOVE_TO_NEXT_QUESTION, "Response too brief to follow up on", none))
  else if (0.85 : Rat) ≤ wscore then
    (s, .ok (.MOVE_TO_NEXT_QUESTION, "Skill sufficiently demonstrated", none))
  else if s.followups_for_current < max_followups ∧
      s.questions_asked < max_questions ∧
      ((0.3 : Rat) ≤ wscore ∧ wscore < (0.85 : Rat)) ∧
      o.followup_draw < 35 then
    match s.preplanned_topics[s.current_topic_index]? with
    | none => (s, .error .indexError)
    | some current_topic =>
      match generate_question_for_topic o s current_topic "followup" true with
      | (s2, .error e) => (s2, .error e)
      | (s2, .ok q) =>
        (s2, .ok (.ASK_FOLLOWUP, "Exploring response further", some q))
  else
    (s, .ok (.MOVE_TO_NEXT_QUESTION, "Moving to next topic", none))

/-- `_evaluate_and_decide`: the completion is requested, then the
`_log_llm_call` at line 546 raises `AttributeError` before the parse, the
fallback synthesis and the decision, with no session field touched — the
turn can never proceed past this point.  The dead tail (parse-or-fallback,
then the code-based decision) sits under the unreachable `.ok` branch
exactly as lines 548-584 write it. -/
def evaluate_and_decide (o : Oracle) (s : Session) (candidate_response : String) :
    Session × Except PyError LLM_Response :=
  match log_llm_call_as_called "evaluate" [] o.eval_raw {} 0 with
  | .error e => (s, .error e)
  | .ok _ =>
    let evaluation :=
      match o.eval_parsed with
      | some ev => ev
      | none => fallback_evaluation o s.current_question
    match decide_next_action o s candidate_response evaluation with
    | (s2, .error e) => (s2, .error e)
    | (s2, .ok (action, reason, next_question)) =>
      (s2, .ok { action := action, evaluation := evaluation,
                 next_question := next_question, reason := some reason })

/-- `_conclude_interview`: the transition into CONCLUDING (unless already
there) persists, then the conclusion completion is requested and the
`_log_llm_call` at line 758 raises `AttributeError` — before the
CONCLUDING → COMPLETED transition, the `ended_at` stamp and the closing
message, which sit under the unreachable `.ok` branch.  A session can
therefore never reach COMPLETED. -/
def conclude_interview (o : Oracle) (s : Session) : Session × Except PyError ChatMessage :=
  let step := if s.state = .CONCLUDING then (s, none) else transition_state s .CONCLUDING
  match step with
  | (s0, some e) => (s0, .error e)
  | (s0, none) =>
    match log_llm_call_as_called "conclusion" [] o.conclusion {} 0 with
    | .error e => (s0, .error e)
    | .ok _ =>
      match transition_state s0 .COMPLETED with
      | (s2, some e) => (s2, .error e)
      | (s2, none) =>
        let s3 := { s2 with ended_at := some o.now }
        let sm := add_message o s3 .INTERVIEWER o.conclusion none
        (sm.1, .ok sm.2)

/-- `start_interview`: the NOT_STARTED → GREETING transition and the
`started_at` stamp persist, then `_generate_greeting` raises
`AttributeError` at its log call; everything from the greeting message to
`questions_asked = 1` (lines 129-154) sits under the unreachable `.ok`
branches and never executes. -/
def start_interview (o : Oracle) (s : Session) : Session × Except PyError ChatMessage :=
  match transition_state s .GREETING with
  | (s0, some e) => (s0, .error e)
  | (s0, none) =>
    let s1 := { s0 with started_at := some o.now }
    match generate_greeting o s1 with
    | (s2, .error e) => (s2, .error e)
    | (s2, .ok greeting) =>
      let s3 := (add_message o s2 .INTERVIEWER greeting none).1
      match transition_state s3 .PREPLANNING with
      | (s4, some e) => (s4, .error e)
      | (s4, none) =>
        match generate_preplan o s4 with
        | (s5, .error e) => (s5, .error e)
        | (s5, .ok preplanned) =>
          let s6 := { s5 with preplanned_topics := preplanned }
          match transition_state s6 .QUESTIONING with
          | (s7, some e) => (s7, .error e)
          | (s7, none) =>
            match generate_first_question o s7 with
            | (s8, .error e) => (s8, .error e)
            | (s8, .ok q) =>
              let s9 := { s8 with current_question := some q, questions_asked := 1 }
              let sm := add_message o s9 .INTERVIEWER (greeting ++ "\n\n" ++ q.text)
                (some { question_id := q.id, skill := q.skill })
              (sm.1, .ok sm.2)

/-- Lines 216-251 of `process_response`: install the decision engine's
question when supplied (re-checking the bound after the increment),
otherwise re-check the bound and generate the next question.  Dead code:
the evaluate raise precedes every path into it. -/
def install_next_question (o : Oracle) (s : Session) (resp : LLM_Response)
    (max_questions : Nat) : Session × Except PyError ChatMessage :=
  match resp.next_question with
  | some nq =>
    let s1 :=
      { s with
        current_question := some nq,
        questions_asked := s.questions_asked + 1 }
    if max_questions < s1.questions_asked then conclude_interview o s1
    else
      let sm := add_message o s1 .INTERVIEWER nq.text
        (some { question_id := nq.id, skill := nq.skill })
      (sm.1, .ok sm.2)
  | none =>
    if max_questions ≤ s.questions_asked then conclude_interview o s
    else
      match generate_next_question o s with
      | (s1, .error e) => (s1, .error e)
      | (s1, .ok q) =>
        let s2 :=
          { s1 with
            current_question := some q,
            questions_asked := s1.questions_asked + 1 }
        let sm := add_message o s2 .INTERVIEWER q.text
          (some { question_id := q.id, skill := q.skill })
        (sm.1, .ok sm.2)

/-- Lines 200-203 of `process_response`: the ASK_FOLLOWUP branch —
transition to FOLLOW_UP, bump the follow-up counter, fall through to the
question-installation tail.  Dead code: the evaluate raise precedes it. -/
def enter_followup (o : Oracle) (s3 : Session) (resp : LLM_Response)
    (max_questions : Nat) : Session × Except PyError ChatMessage :=
  match transition_state s3 .FOLLOW_UP with
  | (s4, some e) => (s4, .error e)
  | (s4, none) =>
    install_next_question o
      { s4 with followups_for_current := s4.followups_for_current + 1 }
      resp max_questions

/-- Lines 204-214 of `process_response` (the MOVE_TO_NEXT_QUESTION branch
after the topic pointer was advanced): conclude when the topics are
exhausted, else transition TRANSITIONING → QUESTIONING and fall through to
the question-installation tail.  Dead code: the evaluate raise precedes
it. -/
def advance_topic (o : Oracle) (s4 : Session) (resp : LLM_Response)
    (max_questions : Nat) : Session × Except PyError ChatMessage :=
  if s4.preplanned_topics.length ≤ s4.current_topic_index then
    conclude_interview o s4
  else
    match transition_state s4 .TRANSITIONING with
    | (s5, some e) => (s5, .error e)
    | (s5, none) =>
      match transition_state s5 .QUESTIONING with
      | (s6, some e) => (s6, .error e)
      | (s6, none) => install_next_question o s6 resp max_questions

/-- `process_response`: the candidate message is appended, then every
continuation fails — the explicit-end and question-limit paths inside
`_conclude_interview` (StateMachineError at the transition, or
AttributeError at the conclusion log), and the main path at the evaluate
log.  The decision handling from line 194 on (`add_evaluation`, the action
branches, the installation tail) is dead code, embedded below exactly as
written. -/
def process_response (o : Oracle) (s : Session) (candidate_response : String) :
    Session × Except PyError ChatMessage :=
  let s1 := (add_message o s .CANDIDATE candidate_response none).1
  if containsAnyPhrase explicit_end_phrases candidate_response then
    conclude_interview o s1
  else
    let max_questions := getMaxQuestions s1.job_data
    if max_questions ≤ s1.questions_asked then
      conclude_interview o s1
    else
      match evaluate_and_decide o s1 candidate_response with
      | (s2, .error e) => (s2, .error e)
      | (s2, .ok resp) =>
        let s3 := { s2 with evaluations := s2.evaluations ++ [resp.evaluation] }
        if resp.action = .END_INTERVIEW then conclude_interview o s3
        else if resp.action = .ASK_FOLLOWUP then
          enter_followup o s3 resp max_questions
        else
          advance_topic o
            { s3 with
              current_topic_index := s3.current_topic_index + 1,
              followups_for_current := 0 }
            resp max_questions

/-- `end_interview_early`. -/
def end_interview_early (o : Oracle) (s : Session) (reason : Option String) :
    Session × Except PyError ChatMessage :=
  match transition_state s .CANCELLED with
  | (s0, some e) => (s0, .error e)
  | (s0, none) =>
    let s1 := { s0 with ended_at := some o.now }
    let closing :=
      match reason with
      | none => "The interview has been ended. Thank you for your time."
      | some r => "The interview has been ended. Reason: " ++ r ++
          ". Thank you for your time."
    let sm := add_message o s1 .INTERVIEWER closing none
    (sm.1, .ok sm.2)

/-! ## Traces of controller operations -/

/-- One controller entry-point invocation with its oracle. -/
inductive Op where
  | start (o : Oracle)
  | respond (o : Oracle) (text : String)
  | endEarly (o : Oracle) (reason : Option String)

/-- The post-state of one operation (the session as mutated, whether or not
the operation raised — Python mutations before a raise persist). -/
def runOp (s : Session) : Op → Session
  | .start o => (start_interview o s).1
  | .respond o text => (process_response o s text).1
  | .endEarly o r => (end_interview_early o s r).1

/-- All intermediate session states of a call sequence, initial state
included. -/
def statesList (s : Session) : List Op → List Session
  | [] => [s]
  | op :: rest => s :: statesList (runOp s op) rest

/-! ## Session store cleanup (`services/interview/session_manager.py`) -/

/-- A staged-resume entry (`{"data": ..., "created_at": ...}`); the parsed
resume payload itself is opaque. -/
structure StoredResume where
  created_at : Nat := 0
deriving DecidableEq, Repr

/-- The two keyed stores of `SessionManager`.  Python dict keys are unique;
the association lists here are keyed by the same ids. -/
structure SessionStore where
  sessions : List (String × Session) := []
  resume_sessions : List (String × StoredResume) := []
deriving DecidableEq, Repr

/-- Is this session older than the cutoff and in a terminal state?
(`(now - created_at).total_seconds() > max_age_minutes * 60` and
`state in (COMPLETED, CANCELLED)`; times are seconds as naturals, so a
session created in the future is simply not expired, as in Python where
the signed difference is negative). -/
def sessionExpired (now max_age_minutes : Nat) (s : Session) : Bool :=
  (decide (max_age_minutes * 60 < now - s.created_at)) &&
    (s.state = InterviewState.COMPLETED || s.state = InterviewState.CANCELLED)

/-- Is this staged resume older than the cutoff? -/
def resumeExpired (now max_age_minutes : Nat) (r : StoredResume) : Bool :=
  decide (max_age_minutes * 60 < now - r.created_at)

/-- `SessionManager.cleanup_expired(max_age_minutes)`: collect the expired
terminal sessions and the expired staged resumes, delete them, and return
the store with the total count removed. -/
def cleanup_expired (st : SessionStore) (now : Nat) (max_age_minutes : Nat) :
    SessionStore × Nat :=
  let expired_sessions := st.sessions.filter (fun p => sessionExpired now max_age_minutes p.2)
  let expired_resumes :=
    st.resume_sessions.filter (fun p => resumeExpired now max_age_minutes p.2)
  ({ sessions := st.sessions.filter (fun p => !sessionExpired now max_age_minutes p.2),
     resume_sessions :=
       st.resume_sessions.filter (fun p => !resumeExpired now max_age_minutes p.2) },
   expired_sessions.length + expired_resumes.length)

/-! ## Concrete data for witnesses and counterexamples -/

/-- A job with the usual policy: ten questions, two follow-ups per
question, default rubric. -/
def sampleJob : Job :=
  { question_policy :=
      some { max_questions := some 10, max_followup_per_question := some 2 },
    evaluation_rubric := none,
    primary_skills := some ["Python", "SQL"] }

def samplePlan : List PrePlanner :=
  [{ serial := 1, skill := "Python", difficulty := .EASY },
   { serial := 2, skill := "SQL", difficulty := .MEDIUM },
   { serial := 3, skill := "APIs", difficulty := .MEDIUM }]

def sampleQuestion : Question :=
  { id := "q1", text := "Explain hash maps.", type := "main",
    expected_concepts := ["hashing"], skill := "Python",
    difficulty := some .EASY, is_coding := false, problem_statement := none }

/-- A session in mid-interview. -/
def sampleSession : Session :=
  { session_id := "s1", state := .QUESTIONING, job_data := some sampleJob,
    preplanned_topics := samplePlan, current_topic_index := 0,
    current_question := some sampleQuestion, questions_asked := 2,
    followups_for_current := 0, messages := [], evaluations := [],
    llm_logs := [], created_at := 0, started_at := some 0, ended_at := none }

def sampleEval : QuestionEvaluation :=
  { question_ref :=
      { question_id := "q1", parent_question_id := none, question_type := "main" },
    skill := "Python", correctness_score := 0.9, depth_score := 0.9,
    communication_score := 0.9, observed_concepts := ["hashing"],
    missing_concepts := [], confidence_level := .MEDIUM, notes := none }

/-- The all-defaults oracle (parse failures everywhere, draw 0). -/
def oracle0 : Oracle := {}

/-- A concrete store with one old terminal session, one old active session
and one old staged resume. -/
def storeW : SessionStore :=
  { sessions :=
      [("done", { sampleSession with state := .COMPLETED }),
       ("live", sampleSession)],
    resume_sessions := [("r1", { created_at := 0 })] }

/-! # Theorems -/

/-! ## JSON extraction lemmas -/

theorem afterFence_eq_none {cs : List Char} (h : ∀ c ∈ cs, c ≠ backtickChar) :
    afterFence cs = none := by
  induction cs with
  | nil => rfl
  | cons c rest ih =>
    have hc : c ≠ backtickChar := h c (by simp)
    simp only [afterFence, hc, false_and, if_false]
    exact ih fun x hx => h x (by simp [hx])

theorem fenceContent_eq_none {cs : List Char} (h : ∀ c ∈ cs, c ≠ backtickChar) :
    fenceContent cs = none := by
  unfold fenceContent
  rw [afterFence_eq_none h]

theorem mem_trimChars {c : Char} {cs : List Char} (h : c ∈ trimChars cs) : c ∈ cs := by
  unfold trimChars at h
  rw [List.mem_reverse] at h
  have h1 := (List.dropWhile_sublist _).mem h
  rw [List.mem_reverse] at h1
  exact (List.dropWhile_sublist _).mem h1

theorem dropUntilChar_append {p rest : List Char} (target : Char)
    (h : ∀ c ∈ p, c ≠ target) (hr : rest.head? = some target) :
    dropUntilChar target (p ++ rest) = some rest := by
  induction p with
  | nil =>
    match rest, hr with
    | c :: t, hr =>
      have : c = target := by simpa using hr
      simp [dropUntilChar, this]
  | cons c p' ih =>
    have hc : c ≠ target := h c (by simp)
    simp only [List.cons_append, dropUntilChar, hc, if_false]
    exact ih fun x hx => h x (by simp [hx])

theorem braceBal_cons (c : Char) (cs : List Char) :
    braceBal (c :: cs) = braceDelta c + braceBal cs := by
  simp [braceBal]

theorem braceDelta_bounds (c : Char) :
    braceDelta c = 1 ∨ braceDelta c = -1 ∨ braceDelta c = 0 := by
  unfold braceDelta
  split_ifs <;> simp

theorem braceDelta_eq_neg_one {c : Char} (h : braceDelta c = -1) : c = rbraceChar := by
  unfold braceDelta at h
  split_ifs at h with h1 h2
  exact h2

/-- The balance-counting loop, started with a strictly positive counter on
input `l ++ t` where `l` closes the counter exactly at its end and every
proper prefix keeps it positive, stops exactly at the end of `l`. -/
theorem balancedScan_exact (l : List Char) : ∀ (t : List Char) (cnt : Int)
    (acc : List Char), 0 < cnt → cnt + braceBal l = 0 →
    (∀ pre, pre <+: l → pre ≠ l → 0 < cnt + braceBal pre) →
    balancedScan lbraceChar rbraceChar cnt acc (l ++ t) = some (acc ++ l) := by
  induction l with
  | nil =>
    intro t cnt acc hcnt hzero _
    simp [braceBal] at hzero
    omega
  | cons c l' ih =>
    intro t cnt acc hcnt hzero hpre
    rw [braceBal_cons] at hzero
    simp only [List.cons_append, balancedScan]
    have hcnt' : (if c = lbraceChar then cnt + 1 else
        if c = rbraceChar then cnt - 1 else cnt) = cnt + braceDelta c := by
      unfold braceDelta
      split_ifs <;> omega
    rw [hcnt']
    rcases eq_or_ne l' [] with hl' | hl'
    · subst hl'
      simp only [braceBal, List.map_nil, List.sum_nil] at hzero
      have hdc : braceDelta c = -cnt := by omega
      have hdc1 : braceDelta c = -1 := by
        rcases braceDelta_bounds c with h1 | h1 | h1 <;> omega
      have hcr : c = rbraceChar := braceDelta_eq_neg_one hdc1
      have hcnt1 : cnt + braceDelta c = 0 := by omega
      rw [if_pos ⟨hcr, hcnt1⟩]
    · have hposc : 0 < cnt + braceDelta c := by
        have := hpre [c] ⟨l', rfl⟩ (by simp [hl'])
        simpa [braceBal, braceDelta] using this
      have hcond : ¬(c = rbraceChar ∧ cnt + braceDelta c = 0) := by
        rintro ⟨_, h⟩; omega
      rw [if_neg hcond]
      have hrec := ih t (cnt + braceDelta c) (acc ++ [c]) hposc
        (by omega)
        (fun pre hp hne => by
          obtain ⟨r, hr⟩ := hp
          have hcp : (c :: pre) <+: (c :: l') := ⟨r, by rw [List.cons_append, hr]⟩
          have := hpre (c :: pre) hcp (by simpa using hne)
          rw [braceBal_cons] at this
          omega)
      simp only [List.append_eq] at hrec ⊢
      rw [hrec]
      simp

/-- The first balanced brace slice of `p ++ o ++ t` is exactly `o` when `p`
contains no open brace and `o` is balanced. -/
theorem braceSlice_append {p o t : List Char}
    (hp : ∀ c ∈ p, c ≠ lbraceChar) (ho : BalancedBraces o) :
    braceSlice (p ++ o ++ t) = some o := by
  obtain ⟨hhead, hzero, hinits⟩ := ho
  match o, hhead with
  | c :: o', hhead =>
    have hc : c = lbraceChar := by simpa using hhead
    subst hc
    unfold braceSlice
    rw [List.append_assoc, dropUntilChar_append lbraceChar hp (by simp)]
    have hlr : ¬ lbraceChar = rbraceChar := by decide
    simp only [List.cons_append, balancedScan, if_pos rfl, hlr, false_and, if_false,
      List.nil_append, zero_add, List.append_eq, eq_self_iff_true, if_true]
    rw [braceBal_cons] at hzero
    have hdel : braceDelta lbraceChar = 1 := by decide
    rw [hdel] at hzero
    have hsc := balancedScan_exact o' t 1 [lbraceChar] (by norm_num) (by omega)
      (fun pre hp' hne' => by
        obtain ⟨r, hr⟩ := hp'
        have hmem : (lbraceChar :: pre) ∈ (lbraceChar :: o').inits := by
          rw [List.mem_inits]
          exact ⟨r, by rw [List.cons_append, hr]⟩
        have := hinits (lbraceChar :: pre) hmem (by simpa using hne') (by simp)
        rw [braceBal_cons, hdel] at this
        omega)
    rw [hsc]
    simp

theorem can_transition_iff (c t : InterviewState) :
    can_transition c t = true ↔ t ∈ VALID_TRANSITIONS c := by
  revert c t; decide

/-- C2: for every pair of states, an attempted transition to a target not
in the table fails with an error naming the current and attempted states
and leaves every session field unchanged; a transition to an allowed
target sets `state := target` and nothing else. -/
theorem c2_transition_total_correct (s : Session) (t : InterviewState) :
    (t ∉ VALID_TRANSITIONS s.state →
      transition_state s t = (s, some (.invalidTransition s.state t))) ∧
    (t ∈ VALID_TRANSITIONS s.state →
      transition_state s t = ({ s with state := t }, none)) := by
  have hiff := can_transition_iff s.state t
  constructor <;> intro h
  · have hb : can_transition s.state t = false := by
      cases hcb : can_transition s.state t with
      | false => rfl
      | true => exact absurd (hiff.mp hcb) h
    simp [transition_state, hb]
  · simp [transition_state, hiff.mpr h]

/-- Witness for C2 at concrete inputs: from COMPLETED every transition is
rejected without mutation, and NOT_STARTED → GREETING succeeds changing
only the state field. -/
theorem c2_transition_total_correct_witness :
    transition_state { state := .COMPLETED } .GREETING =
      ({ state := .COMPLETED }, some (.invalidTransition .COMPLETED .GREETING)) ∧
    transition_state { state := .NOT_STARTED } .GREETING =
      ({ state := .GREETING }, none) :=
  ⟨(c2_transition_total_correct { state := .COMPLETED } .GREETING).1 (by decide),
   (c2_transition_total_correct { state := .NOT_STARTED } .GREETING).2 (by decide)⟩

theorem string_append_toList (a b : String) : (a ++ b).toList = a.toList ++ b.toList :=
  rfl

theorem string_mk_toList (s : String) : String.mk s.toList = s :=
  rfl

/-- C6 counterexample: for the input consisting of the balanced JSON object
(open brace, quote, a, quote, colon, 1, close brace) followed by the
trailing prose " thanks", the function returns the whole input unchanged
(prose included), not the balanced object, because a stripped input that
starts with an open brace is returned as-is before any balance scanning. -/
theorem c6_counterexample_trailing_prose :
    extract_json_from_response "\x7b\x22a\x22: 1\x7d thanks" =
      "\x7b\x22a\x22: 1\x7d thanks" ∧
    extract_json_from_response "\x7b\x22a\x22: 1\x7d thanks" ≠
      "\x7b\x22a\x22: 1\x7d" := by
  constructor <;> decide

/-- C6 (amended): the outermost-balanced-object behaviour holds when the
JSON payload is preceded by non-empty prose (no code fence present, prose
free of open braces, stripped input not starting with a brace/bracket): the
returned string is then exactly the outermost balanced object.  When the
stripped input itself starts with an open brace, the whole stripped input is
returned as-is, trailing prose included. -/
theorem c6_extract_json_amended :
    (∀ p o t : String,
      (∀ c ∈ (p ++ o ++ t).toList, c ≠ backtickChar) →
      trimChars (p ++ o ++ t).toList = (p ++ o ++ t).toList →
      p.toList ≠ [] →
      (∀ c ∈ p.toList, c ≠ lbraceChar) →
      p.toList.head? ≠ some '[' →
      BalancedBraces o.toList →
      extract_json_from_response (p ++ o ++ t) = o) ∧
    (∀ s : String, s ≠ "" →
      (∀ c ∈ s.toList, c ≠ backtickChar) →
      (trimChars s.toList).head? = some lbraceChar →
      extract_json_from_response s = String.mk (trimChars s.toList)) := by
  constructor
  · intro p o t hback hstrip hpne hplb hphead hbal
    have htl : (p ++ o ++ t).toList = p.toList ++ o.toList ++ t.toList := by
      rw [string_append_toList, string_append_toList]
    have hne : p ++ o ++ t ≠ "" := by
      intro h
      rw [h] at htl
      have h0 : p.toList ++ o.toList ++ t.toList = [] := htl.symm
      rcases List.append_eq_nil.mp h0 with ⟨h1, -⟩
      rcases List.append_eq_nil.mp h1 with ⟨h2, -⟩
      exact hpne h2
    have hfence : fenceContent (trimChars (p ++ o ++ t).toList) = none := by
      rw [hstrip]
      exact fenceContent_eq_none hback
    unfold extract_json_from_response
    rw [if_neg hne]
    simp only [hfence]
    rw [hstrip, htl]
    obtain ⟨c, ptl, hpdes⟩ := List.exists_cons_of_ne_nil hpne
    rw [hpdes]
    have hc1 : c ≠ lbraceChar := hplb c (by rw [hpdes]; simp)
    have hc2 : c ≠ '[' := by
      intro h
      rw [hpdes] at hphead
      simp [h] at hphead
    have hbs : braceSlice ((c :: ptl) ++ o.toList ++ t.toList) = some o.toList :=
      braceSlice_append (fun x hx => hplb x (by rw [hpdes]; exact hx)) hbal
    unfold extractCore
    rw [if_neg (by simp [hc1, hc2])]
    rw [hbs]
    exact string_mk_toList o
  · intro s hs hback hhead
    have hfence : fenceContent (trimChars s.toList) = none :=
      fenceContent_eq_none fun c hc => hback c (mem_trimChars hc)
    unfold extract_json_from_response
    rw [if_neg hs]
    simp only [hfence]
    unfold extractCore
    rw [if_pos (Or.inl hhead)]

/-- Witness for C6 (amended) at concrete inputs: prose before a balanced
object extracts exactly the object; an object at the start is returned with
its trailing prose. -/
theorem c6_extract_json_amended_witness :
    extract_json_from_response ("Sure: " ++ "\x7b\x22a\x22: 1\x7d" ++ " done") =
      "\x7b\x22a\x22: 1\x7d" ∧
    extract_json_from_response "\x7b\x22b\x22: 2\x7d trailing" =
      String.mk (trimChars ("\x7b\x22b\x22: 2\x7d trailing").toList) :=
  ⟨c6_extract_json_amended.1 "Sure: " "\x7b\x22a\x22: 1\x7d" " done"
      (by decide) (by decide) (by decide) (by decide) (by decide) (by decide),
   c6_extract_json_amended.2 "\x7b\x22b\x22: 2\x7d trailing"
      (by decide) (by decide) (by decide)⟩

/-! ## Transition-table evaluations used throughout -/

@[simp] theorem ct_not_started_greeting :
    can_transition .NOT_STARTED .GREETING = true := by decide

@[simp] theorem ct_greeting_preplanning :
    can_transition .GREETING .PREPLANNING = true := by decide

@[simp] theorem ct_preplanning_questioning :
    can_transition .PREPLANNING .QUESTIONING = true := by decide

@[simp] theorem ct_questioning_concluding :
    can_transition .QUESTIONING .CONCLUDING = true := by decide

@[simp] theorem ct_follow_up_concluding :
    can_transition .FOLLOW_UP .CONCLUDING = true := by decide

@[simp] theorem ct_concluding_completed :
    can_transition .CONCLUDING .COMPLETED = true := by decide

@[simp] theorem ct_questioning_follow_up :
    can_transition .QUESTIONING .FOLLOW_UP = true := by decide

@[simp] theorem ct_follow_up_follow_up :
    can_transition .FOLLOW_UP .FOLLOW_UP = true := by decide

@[simp] theorem ct_questioning_transitioning :
    can_transition .QUESTIONING .TRANSITIONING = true := by decide

@[simp] theorem ct_follow_up_transitioning :
    can_transition .FOLLOW_UP .TRANSITIONING = true := by decide

@[simp] theorem ct_transitioning_questioning :
    can_transition .TRANSITIONING .QUESTIONING = true := by decide

@[simp] theorem ct_completed_any (t : InterviewState) :
    can_transition .COMPLETED t = false := by cases t <;> decide

@[simp] theorem ct_cancelled_any (t : InterviewState) :
    can_transition .CANCELLED t = false := by cases t <;> decide

/-! ## Shape lemmas for the flow helpers -/

/-- `log_llm_call_as_called` always returns an `AttributeError`, chosen by
the response string alone. -/
theorem log_call_error_shape (ct : String) (msgs : List LLMMessage) (r : String)
    (u : Usage) (lat : Nat) :
    log_llm_call_as_called ct msgs r u lat =
      .error (.attributeError
        (if r.toList ≠ [] then "str object has no attribute role"
         else "int object has no attribute get")) := by
  unfold log_llm_call_as_called
  split_ifs <;> rfl

/-- `_generate_greeting` raises at its log call with the session
untouched. -/
theorem generate_greeting_raises (o : Oracle) (s : Session) :
    ∃ m, generate_greeting o s = (s, .error (.attributeError m)) := by
  unfold generate_greeting
  rw [log_call_error_shape]
  exact ⟨_, rfl⟩

/-- `_evaluate_and_decide` raises at its log call with the session
untouched: no evaluation is parsed, synthesized or returned. -/
theorem evaluate_and_decide_raises (o : Oracle) (s : Session) (text : String) :
    ∃ m, evaluate_and_decide o s text = (s, .error (.attributeError m)) := by
  unfold evaluate_and_decide
  rw [log_call_error_shape]
  exact ⟨_, rfl⟩

theorem conclude_interview_fail (o : Oracle) (s : Session)
    (h1 : s.state ≠ .CONCLUDING)
    (h2 : can_transition s.state .CONCLUDING = false) :
    conclude_interview o s = (s, .error (.invalidTransition s.state .CONCLUDING)) := by
  simp [conclude_interview, transition_state, h1, h2]

/-- `_conclude_interview` on a session already CONCLUDING: the conclusion
log raises with the session untouched. -/
theorem conclude_interview_concluding (o : Oracle) (s : Session)
    (h : s.state = .CONCLUDING) :
    ∃ m, conclude_interview o s = (s, .error (.attributeError m)) := by
  simp only [conclude_interview]
  rw [if_pos h, log_call_error_shape]
  exact ⟨_, rfl⟩

/-- `_conclude_interview` from a state that may legally enter CONCLUDING:
the transition persists, then the conclusion log raises — the
CONCLUDING → COMPLETED transition is never reached. -/
theorem conclude_interview_enters (o : Oracle) (s : Session)
    (h1 : s.state ≠ .CONCLUDING)
    (h2 : can_transition s.state .CONCLUDING = true) :
    ∃ m, conclude_interview o s =
      ({ s with state := .CONCLUDING }, .error (.attributeError m)) := by
  have ht : transition_state s .CONCLUDING =
      ({ s with state := .CONCLUDING }, none) := by
    simp [transition_state, h2]
  simp only [conclude_interview]
  rw [if_neg h1, ht]
  dsimp only
  rw [log_call_error_shape]
  exact ⟨_, rfl⟩

/-- `_conclude_interview` touches only `state` (to CONCLUDING at most),
preserves every other field, never reaches COMPLETED, and always fails. -/
theorem conclude_interview_fields (o : Oracle) (x : Session) :
    ((conclude_interview o x).1).questions_asked = x.questions_asked ∧
    ((conclude_interview o x).1).current_question = x.current_question ∧
    ((conclude_interview o x).1).evaluations = x.evaluations ∧
    ((conclude_interview o x).1).current_topic_index = x.current_topic_index ∧
    ((conclude_interview o x).1).preplanned_topics = x.preplanned_topics ∧
    ((conclude_interview o x).1).followups_for_current = x.followups_for_current ∧
    ((conclude_interview o x).1).job_data = x.job_data ∧
    ((conclude_interview o x).1).messages = x.messages ∧
    (((conclude_interview o x).1).state = .COMPLETED → x.state = .COMPLETED) ∧
    (∃ e, (conclude_interview o x).2 = .error e) := by
  by_cases hc : x.state = .CONCLUDING
  · obtain ⟨m, hm⟩ := conclude_interview_concluding o x hc
    rw [hm]
    exact ⟨rfl, rfl, rfl, rfl, rfl, rfl, rfl, rfl, fun hh => hh, ⟨_, rfl⟩⟩
  · by_cases hct : can_transition x.state .CONCLUDING = true
    · obtain ⟨m, hm⟩ := conclude_interview_enters o x hc hct
      rw [hm]
      refine ⟨rfl, rfl, rfl, rfl, rfl, rfl, rfl, rfl, ?_, ⟨_, rfl⟩⟩
      intro hh
      simp at hh
    · have hcf : can_transition x.state .CONCLUDING = false := by simpa using hct
      rw [conclude_interview_fail o x hc hcf]
      exact ⟨rfl, rfl, rfl, rfl, rfl, rfl, rfl, rfl, fun hh => hh, ⟨_, rfl⟩⟩

/-- `start_interview` from NOT_STARTED: the GREETING transition and the
`started_at` stamp persist, then the greeting log raises —
`questions_asked = 1` never executes. -/
theorem start_interview_greeting_raises (o : Oracle) (s : Session)
    (h : s.state = .NOT_STARTED) :
    ∃ m, start_interview o s =
      ({ s with state := .GREETING, started_at := some o.now },
        .error (.attributeError m)) := by
  have ht : transition_state s .GREETING = ({ s with state := .GREETING }, none) := by
    simp [transition_state, h]
  simp only [start_interview, generate_greeting]
  rw [ht, log_call_error_shape]
  exact ⟨_, rfl⟩

/-- C5: the claim says every LLM completion call appends exactly one
call-audit record to `session.llm_logs` and that this logging never makes
the calling operation raise.  The code contradicts it: every one of the
five call sites passes `_log_llm_call` five positional arguments against a
signature whose first parameter after `self` is `session`, so the arguments
shift by one and the body raises `AttributeError` on every call — for any
call type, prompt, response, usage and latency — and no record is ever
appended.  Every flow operation that reaches one of these call sites
therefore aborts there; the flow definitions embed exactly that. -/
theorem c5_log_llm_call_always_raises (ct : String) (msgs : List LLMMessage)
    (response : String) (u : Usage) (lat : Nat) :
    ∃ m, log_llm_call_as_called ct msgs response u lat = .error (.attributeError m) := by
  unfold log_llm_call_as_called
  split_ifs <;> exact ⟨_, rfl⟩

/-- C10: `cleanup_expired` removes exactly the sessions that are both older
than the cutoff and terminal, removes exactly the staged resumes older than
the cutoff, returns the total number removed, and never deletes a
non-terminal session whatever its age. -/
theorem sessionExpired_iff (now ma : Nat) (s : Session) :
    sessionExpired now ma s = true ↔
      ma * 60 < now - s.created_at ∧
        (s.state = .COMPLETED ∨ s.state = .CANCELLED) := by
  simp [sessionExpired]

theorem sessionExpired_eq_false_iff (now ma : Nat) (s : Session) :
    sessionExpired now ma s = false ↔
      ¬(ma * 60 < now - s.created_at ∧
        (s.state = .COMPLETED ∨ s.state = .CANCELLED)) := by
  rw [← sessionExpired_iff now ma s]
  simp

theorem resumeExpired_eq_false_iff (now ma : Nat) (r : StoredResume) :
    resumeExpired now ma r = false ↔ ¬(ma * 60 < now - r.created_at) := by
  simp [resumeExpired]

theorem c10_cleanup_expired_correct (st : SessionStore) (now max_age : Nat) :
    (∀ p, p ∈ ((cleanup_expired st now max_age).1).sessions ↔
      p ∈ st.sessions ∧
        ¬(max_age * 60 < now - p.2.created_at ∧
          (p.2.state = .COMPLETED ∨ p.2.state = .CANCELLED))) ∧
    (∀ p, p ∈ ((cleanup_expired st now max_age).1).resume_sessions ↔
      p ∈ st.resume_sessions ∧ ¬(max_age * 60 < now - p.2.created_at)) ∧
    ((cleanup_expired st now max_age).2 =
      st.sessions.countP (fun p => sessionExpired now max_age p.2) +
        st.resume_sessions.countP (fun p => resumeExpired now max_age p.2)) ∧
    (∀ p ∈ st.sessions, ¬(p.2.state = .COMPLETED ∨ p.2.state = .CANCELLED) →
      p ∈ ((cleanup_expired st now max_age).1).sessions) := by
  have hkeep : ((cleanup_expired st now max_age).1).sessions =
      st.sessions.filter (fun q => !sessionExpired now max_age q.2) := rfl
  have hkeepr : ((cleanup_expired st now max_age).1).resume_sessions =
      st.resume_sessions.filter (fun q => !resumeExpired now max_age q.2) := rfl
  refine ⟨?_, ?_, ?_, ?_⟩
  · intro p
    rw [hkeep, List.mem_filter, Bool.not_eq_true', sessionExpired_eq_false_iff]
  · intro p
    rw [hkeepr, List.mem_filter, Bool.not_eq_true', resumeExpired_eq_false_iff]
  · simp [cleanup_expired, List.countP_eq_length_filter]
  · intro p hp hnt
    rw [hkeep, List.mem_filter, Bool.not_eq_true', sessionExpired_eq_false_iff]
    exact ⟨hp, fun hx => hnt hx.2⟩

/-- Witness for C10 at a concrete store: the old terminal session is
removed while the old but active session survives. -/
theorem c10_cleanup_expired_correct_witness :
    ("done", { sampleSession with state := .COMPLETED }) ∉
      ((cleanup_expired storeW 7200 60).1).sessions ∧
    ("live", sampleSession) ∈ ((cleanup_expired storeW 7200 60).1).sessions := by
  constructor
  · intro hmem
    have h := ((c10_cleanup_expired_correct storeW 7200 60).1
      ("done", { sampleSession with state := .COMPLETED })).mp hmem
    exact h.2 (by decide)
  · exact (c10_cleanup_expired_correct storeW 7200 60).2.2.2
      ("live", sampleSession) (by decide) (by decide)

/-- C1: when none of the deterministic rules 1-5 fires (question limit not
reached, not the exhausted last topic, no skip phrase, follow-up limit not
reached, stripped response at least 30 characters and confidence above
LOW) and the rubric-weighted score is at least 0.85, the decision engine
returns MOVE_TO_NEXT_QUESTION with reason "Skill sufficiently
demonstrated" whatever the random draw; and a perfect evaluation
(all three scores 1.0) under the default 0.5/0.3/0.2 weights never yields
ASK_FOLLOWUP, whatever the session, response and draw. -/
theorem c1_high_score_moves_on :
    (∀ (o : Oracle) (s : Session) (resp : String) (ev : QuestionEvaluation),
      s.questions_asked < getMaxQuestions s.job_data →
      ¬((s.preplanned_topics.length : Int) - 1 ≤ (s.current_topic_index : Int) ∧
        getMaxFollowups s.job_data ≤ s.followups_for_current) →
      containsAnyPhrase skip_phrases resp = false →
      s.followups_for_current < getMaxFollowups s.job_data →
      ¬((trimChars resp.toList).length < 30) →
      ev.confidence_level ≠ ConfidenceLevel.LOW →
      (0.85 : Rat) ≤ weighted_score s.job_data ev →
      decide_next_action o s resp ev =
        (s, .ok (.MOVE_TO_NEXT_QUESTION, "Skill sufficiently demonstrated", none))) ∧
    (∀ (o : Oracle) (s : Session) (resp : String) (ev : QuestionEvaluation),
      correctnessWeight s.job_data = 0.5 →
      depthWeight s.job_data = 0.3 →
      communicationWeight s.job_data = 0.2 →
      ev.correctness_score = 1 → ev.depth_score = 1 → ev.communication_score = 1 →
      ∀ (r : String) (q : Option Question),
        (decide_next_action o s resp ev).2 ≠ .ok (.ASK_FOLLOWUP, r, q)) := by
  constructor
  · intro o s resp ev h1 h2 h3 h4 h5 h6 h7
    simp only [decide_next_action]
    rw [if_neg (by omega), if_neg h2, if_neg (by simp [h3]),
      if_neg (by omega), if_neg (by push_neg; exact ⟨Nat.not_lt.mp h5, h6⟩),
      if_pos h7]
  · intro o s resp ev hw1 hw2 hw3 hc hd hcm r q
    have hws : weighted_score s.job_data ev = 1 := by
      unfold weighted_score
      rw [hw1, hw2, hw3, hc, hd, hcm]
      norm_num
    simp only [decide_next_action]
    rw [hws]
    by_cases g1 : getMaxQuestions s.job_data ≤ s.questions_asked
    · rw [if_pos g1]; simp
    rw [if_neg g1]
    by_cases g2 : ((s.preplanned_topics.length : Int) - 1 ≤ (s.current_topic_index : Int) ∧
      getMaxFollowups s.job_data ≤ s.followups_for_current)
    · rw [if_pos g2]; simp
    rw [if_neg g2]
    by_cases g3 : containsAnyPhrase skip_phrases resp = true
    · rw [if_pos g3]; simp
    rw [if_neg g3]
    by_cases g4 : getMaxFollowups s.job_data ≤ s.followups_for_current
    · rw [if_pos g4]; simp
    rw [if_neg g4]
    by_cases g5 : ((trimChars resp.toList).length < 30 ∨
      ev.confidence_level = ConfidenceLevel.LOW)
    · rw [if_pos g5]; simp
    rw [if_neg g5]
    rw [if_pos (show (0.85 : Rat) ≤ 1 by norm_num)]
    simp

/-- Witness for C1 at concrete inputs: a strong non-skip answer with score
0.9 under default weights moves on with the "skill sufficiently
demonstrated" reason, and a perfect 1.0/1.0/1.0 evaluation never asks a
follow-up. -/
theorem c1_high_score_moves_on_witness :
    decide_next_action oracle0 sampleSession
        "I would reach for a hash map because lookups stay near constant time"
        sampleEval =
      (sampleSession, .ok (.MOVE_TO_NEXT_QUESTION, "Skill sufficiently demonstrated", none)) ∧
    (decide_next_action oracle0 sampleSession "great answer text"
        { sampleEval with
          correctness_score := 1, depth_score := 1, communication_score := 1 }).2 ≠
      .ok (.ASK_FOLLOWUP, "Exploring response further", none) :=
  ⟨c1_high_score_moves_on.1 oracle0 sampleSession
      "I would reach for a hash map because lookups stay near constant time"
      sampleEval (by decide) (by decide) (by decide) (by decide) (by decide)
      (by decide)
      (by norm_num [weighted_score, correctnessWeight, depthWeight,
        communicationWeight, getRubric, sampleEval, sampleSession, sampleJob]),
   c1_high_score_moves_on.2 oracle0 sampleSession "great answer text"
      { sampleEval with
        correctness_score := 1, depth_score := 1, communication_score := 1 }
      (by simp [correctnessWeight, getRubric, sampleSession, sampleJob])
      (by simp [depthWeight, getRubric, sampleSession, sampleJob])
      (by simp [communicationWeight, getRubric, sampleSession, sampleJob])
      rfl rfl rfl
      "Exploring response further" none⟩

/-- `end_interview_early` never touches the question counter, the topic
pointer or the topic plan. -/
theorem end_interview_early_fields (o : Oracle) (s : Session) (r : Option String) :
    ((end_interview_early o s r).1).questions_asked = s.questions_asked ∧
    ((end_interview_early o s r).1).current_topic_index = s.current_topic_index ∧
    ((end_interview_early o s r).1).preplanned_topics = s.preplanned_topics := by
  by_cases hct : can_transition s.state .CANCELLED = true
  · have ht : transition_state s .CANCELLED =
        ({ s with state := .CANCELLED }, none) := by
      simp [transition_state, hct]
    simp only [end_interview_early, ht]
    exact ⟨by trivial, by trivial, by trivial⟩
  · have hcf : can_transition s.state .CANCELLED = false := by simpa using hct
    have ht : transition_state s .CANCELLED =
        (s, some (.invalidTransition s.state .CANCELLED)) := by
      simp [transition_state, hcf]
    simp only [end_interview_early, ht]
    exact ⟨by trivial, by trivial, by trivial⟩

/-- One `process_response` call: the candidate message is appended, then
either `_conclude_interview` fails (StateMachineError at the transition,
or AttributeError at the conclusion log after at most entering CONCLUDING)
or the evaluate log raises with nothing else touched.  Every field except
`state` and `messages` is preserved, COMPLETED is never entered, and the
call always fails. -/
theorem process_response_fields (o : Oracle) (s : Session) (text : String) :
    ((process_response o s text).1).questions_asked = s.questions_asked ∧
    ((process_response o s text).1).current_question = s.current_question ∧
    ((process_response o s text).1).evaluations = s.evaluations ∧
    ((process_response o s text).1).current_topic_index = s.current_topic_index ∧
    ((process_response o s text).1).preplanned_topics = s.preplanned_topics ∧
    ((process_response o s text).1).followups_for_current =
      s.followups_for_current ∧
    ((process_response o s text).1).job_data = s.job_data ∧
    ((process_response o s text).1).messages = s.messages ++
      [{ id := o.uuid s.messages.length, role := .CANDIDATE, content := text,
         timestamp := o.now, metadata := none }] ∧
    (((process_response o s text).1).state = .COMPLETED →
      s.state = .COMPLETED) ∧
    (∃ e, (process_response o s text).2 = .error e) := by
  simp only [process_response]
  set s1 : Session := (add_message o s .CANDIDATE text none).1 with hs1
  have h1qa : s1.questions_asked = s.questions_asked := by
    rw [hs1]; simp [add_message]
  have h1cq : s1.current_question = s.current_question := by
    rw [hs1]; simp [add_message]
  have h1ev : s1.evaluations = s.evaluations := by rw [hs1]; simp [add_message]
  have h1idx : s1.current_topic_index = s.current_topic_index := by
    rw [hs1]; simp [add_message]
  have h1top : s1.preplanned_topics = s.preplanned_topics := by
    rw [hs1]; simp [add_message]
  have h1fl : s1.followups_for_current = s.followups_for_current := by
    rw [hs1]; simp [add_message]
  have h1job : s1.job_data = s.job_data := by rw [hs1]; simp [add_message]
  have h1state : s1.state = s.state := by rw [hs1]; simp [add_message]
  have h1msg : s1.messages = s.messages ++
      [{ id := o.uuid s.messages.length, role := .CANDIDATE, content := text,
         timestamp := o.now, metadata := none }] := by
    rw [hs1]
    simp [add_message]
  have hconc : ((conclude_interview o s1).1).questions_asked =
        s.questions_asked ∧
      ((conclude_interview o s1).1).current_question = s.current_question ∧
      ((conclude_interview o s1).1).evaluations = s.evaluations ∧
      ((conclude_interview o s1).1).current_topic_index =
        s.current_topic_index ∧
      ((conclude_interview o s1).1).preplanned_topics = s.preplanned_topics ∧
      ((conclude_interview o s1).1).followups_for_current =
        s.followups_for_current ∧
      ((conclude_interview o s1).1).job_data = s.job_data ∧
      ((conclude_interview o s1).1).messages = s.messages ++
        [{ id := o.uuid s.messages.length, role := .CANDIDATE, content := text,
           timestamp := o.now, metadata := none }] ∧
      (((conclude_interview o s1).1).state = .COMPLETED →
        s.state = .COMPLETED) ∧
      (∃ e, (conclude_interview o s1).2 = .error e) := by
    obtain ⟨cqa, ccq, cev, cidx, ctop, cfl, cjob, cmsg, cst, cerr⟩ :=
      conclude_interview_fields o s1
    exact ⟨cqa.trans h1qa, ccq.trans h1cq, cev.trans h1ev, cidx.trans h1idx,
      ctop.trans h1top, cfl.trans h1fl, cjob.trans h1job, cmsg.trans h1msg,
      fun hh => h1state.symm.trans (cst hh), cerr⟩
  by_cases hend : containsAnyPhrase explicit_end_phrases text = true
  · rw [if_pos hend]
    exact hconc
  rw [if_neg hend]
  by_cases hlim : getMaxQuestions s1.job_data ≤ s1.questions_asked
  · rw [if_pos hlim]
    exact hconc
  rw [if_neg hlim]
  obtain ⟨m, hev⟩ := evaluate_and_decide_raises o s1 text
  rw [hev]
  exact ⟨h1qa, h1cq, h1ev, h1idx, h1top, h1fl, h1job, h1msg,
    fun hh => h1state.symm.trans hh, ⟨_, rfl⟩⟩

/-- C7 (code bug): the claimed fallback path is dead code and the turn
always fails.  The `_log_llm_call` at the evaluate site (line 546) raises
`AttributeError` before JSON extraction, before the neutral fallback is
synthesized and before `add_evaluation` runs: `_evaluate_and_decide`
returns the session untouched with the error, and `process_response` never
appends an evaluation and never completes a turn. -/
theorem c7_evaluation_always_raises (o : Oracle) (s : Session) (text : String) :
    (∃ m, evaluate_and_decide o s text = (s, .error (.attributeError m))) ∧
    ((process_response o s text).1).evaluations = s.evaluations ∧
    (∃ e, (process_response o s text).2 = .error e) := by
  obtain ⟨-, -, hev, -, -, -, -, -, -, herr⟩ := process_response_fields o s text
  exact ⟨evaluate_and_decide_raises o s text, hev, herr⟩

/-- `process_response` on a terminal session: the conclude paths fail at
the CONCLUDING transition and the evaluate path at its log, so beyond the
appended candidate message nothing changes. -/
theorem process_response_terminal (o : Oracle) (s : Session) (text : String)
    (hterm : s.state = .COMPLETED ∨ s.state = .CANCELLED) :
    ((process_response o s text).1).state = s.state ∧
    ((process_response o s text).1).current_question = s.current_question ∧
    ((process_response o s text).1).questions_asked = s.questions_asked ∧
    ((process_response o s text).1).evaluations = s.evaluations ∧
    ((process_response o s text).1).current_topic_index = s.current_topic_index ∧
    ((process_response o s text).1).messages = s.messages ++
      [{ id := o.uuid s.messages.length, role := .CANDIDATE, content := text,
         timestamp := o.now, metadata := none }] ∧
    (∃ e, (process_response o s text).2 = .error e) := by
  have hne : s.state ≠ .CONCLUDING := by
    rcases hterm with h | h <;> rw [h] <;> decide
  have hcc : can_transition s.state .CONCLUDING = false := by
    rcases hterm with h | h <;> rw [h] <;> simp
  simp only [process_response]
  set s1 : Session := (add_message o s .CANDIDATE text none).1 with hs1
  have h1state : s1.state = s.state := by rw [hs1]; simp [add_message]
  have h1cq : s1.current_question = s.current_question := by
    rw [hs1]; simp [add_message]
  have h1qa : s1.questions_asked = s.questions_asked := by
    rw [hs1]; simp [add_message]
  have h1ev : s1.evaluations = s.evaluations := by rw [hs1]; simp [add_message]
  have h1idx : s1.current_topic_index = s.current_topic_index := by
    rw [hs1]; simp [add_message]
  have h1msg : s1.messages = s.messages ++
      [{ id := o.uuid s.messages.length, role := .CANDIDATE, content := text,
         timestamp := o.now, metadata := none }] := by
    rw [hs1]
    simp [add_message]
  have hcfail : conclude_interview o s1 =
      (s1, .error (.invalidTransition s.state .CONCLUDING)) := by
    have hh := conclude_interview_fail o s1 (by rw [h1state]; exact hne)
      (by rw [h1state]; exact hcc)
    rw [h1state] at hh
    exact hh
  by_cases hend : containsAnyPhrase explicit_end_phrases text = true
  · rw [if_pos hend, hcfail]
    exact ⟨h1state, h1cq, h1qa, h1ev, h1idx, h1msg, _, rfl⟩
  rw [if_neg hend]
  by_cases hlim : getMaxQuestions s1.job_data ≤ s1.questions_asked
  · rw [if_pos hlim, hcfail]
    exact ⟨h1state, h1cq, h1qa, h1ev, h1idx, h1msg, _, rfl⟩
  rw [if_neg hlim]
  obtain ⟨m, hev⟩ := evaluate_and_decide_raises o s1 text
  rw [hev]
  exact ⟨h1state, h1cq, h1qa, h1ev, h1idx, h1msg, _, rfl⟩

theorem start_interview_not_not_started (o : Oracle) (s : Session)
    (h : s.state ≠ .NOT_STARTED) :
    start_interview o s = (s, .error (.invalidTransition s.state .GREETING)) := by
  have hc : can_transition s.state .GREETING = false := by
    cases hst : s.state
    · exact absurd hst h
    all_goals decide
  simp only [start_interview, transition_state, hc]
  simp

theorem end_interview_early_terminal (o : Oracle) (s : Session) (r : Option String)
    (hterm : s.state = .COMPLETED ∨ s.state = .CANCELLED) :
    end_interview_early o s r = (s, .error (.invalidTransition s.state .CANCELLED)) := by
  have hc : can_transition s.state .CANCELLED = false := by
    rcases hterm with h | h <;> rw [h] <;> simp
  simp only [end_interview_early, transition_state, hc]
  simp

/-- C9 counterexample: on a COMPLETED session, `process_response` appends
the candidate message to `session.messages` before failing — the claim
that a call on a terminal session performs no mutation before failing is
false. -/
theorem c9_counterexample_terminal_mutation :
    ((process_response oracle0
        { sampleSession with state := .COMPLETED, questions_asked := 10 }
        "hello").1).messages ≠
      ({ sampleSession with state := .COMPLETED, questions_asked := 10 } :
        Session).messages := by
  decide

/-- `start_interview` never changes any field except `state` (to GREETING
at most) and `started_at`, and always fails: the greeting log raises
before the preplan is installed and before `questions_asked = 1`. -/
theorem start_interview_fields (o : Oracle) (s : Session) :
    ((start_interview o s).1).questions_asked = s.questions_asked ∧
    ((start_interview o s).1).current_topic_index = s.current_topic_index ∧
    ((start_interview o s).1).preplanned_topics = s.preplanned_topics ∧
    ((start_interview o s).1).evaluations = s.evaluations ∧
    ((start_interview o s).1).current_question = s.current_question ∧
    ((start_interview o s).1).messages = s.messages ∧
    ((start_interview o s).1).job_data = s.job_data ∧
    (∃ e, (start_interview o s).2 = .error e) := by
  by_cases h : s.state = .NOT_STARTED
  · obtain ⟨m, hm⟩ := start_interview_greeting_raises o s h
    rw [hm]
    exact ⟨rfl, rfl, rfl, rfl, rfl, rfl, rfl, ⟨_, rfl⟩⟩
  · rw [start_interview_not_not_started o s h]
    exact ⟨rfl, rfl, rfl, rfl, rfl, rfl, rfl, ⟨_, rfl⟩⟩

/-- C8 (code bug): the scenario can never play out, whatever the policy —
`max_questions = 1` included.  `start_interview` raises `AttributeError` at
the greeting log before line 144 sets `questions_asked = 1`, so the counter
is unchanged and the call errors; and `process_response` can never produce
a COMPLETED session, because `_conclude_interview` raises at the conclusion
log (line 758) before its CONCLUDING → COMPLETED transition. -/
theorem c8_interview_never_completes (o : Oracle) (s : Session) (text : String) :
    ((start_interview o s).1).questions_asked = s.questions_asked ∧
    (∃ e, (start_interview o s).2 = .error e) ∧
    (((process_response o s text).1).state = .COMPLETED →
      s.state = .COMPLETED) ∧
    (∃ e, (process_response o s text).2 = .error e) := by
  obtain ⟨sqa, -, -, -, -, -, -, serr⟩ := start_interview_fields o s
  obtain ⟨-, -, -, -, -, -, -, -, pst, perr⟩ := process_response_fields o s text
  exact ⟨sqa, serr, pst, perr⟩

/-- C9 (amended): on a terminal session, `start_interview` and
`end_interview_early` fail without any mutation; `process_response` also
always fails and leaves `state`, `current_question`, `questions_asked`,
`evaluations` and `current_topic_index` unchanged — but it appends the
candidate message to `messages` before failing, so the claim that a call
on a terminal session performs no mutation before failing is false for
`messages` (see the counterexample). -/
theorem c9_terminal_amended (o : Oracle) (s : Session) (text : String)
    (r : Option String)
    (hterm : s.state = .COMPLETED ∨ s.state = .CANCELLED) :
    start_interview o s = (s, .error (.invalidTransition s.state .GREETING)) ∧
    end_interview_early o s r =
      (s, .error (.invalidTransition s.state .CANCELLED)) ∧
    ((process_response o s text).1).state = s.state ∧
    ((process_response o s text).1).current_question = s.current_question ∧
    ((process_response o s text).1).questions_asked = s.questions_asked ∧
    ((process_response o s text).1).evaluations = s.evaluations ∧
    ((process_response o s text).1).current_topic_index = s.current_topic_index ∧
    ((process_response o s text).1).messages = s.messages ++
      [{ id := o.uuid s.messages.length, role := .CANDIDATE, content := text,
         timestamp := o.now, metadata := none }] ∧
    (∃ e, (process_response o s text).2 = .error e) := by
  have hns : s.state ≠ .NOT_STARTED := by
    rcases hterm with h | h <;> rw [h] <;> decide
  have h3 := process_response_terminal o s text hterm
  exact ⟨start_interview_not_not_started o s hns,
    end_interview_early_terminal o s r hterm,
    h3.1, h3.2.1, h3.2.2.1, h3.2.2.2.1, h3.2.2.2.2.1, h3.2.2.2.2.2.1,
    h3.2.2.2.2.2.2⟩

/-- Witness for C9 (amended) on a concrete CANCELLED session: both
rejecting calls and the untouched evaluation list. -/
theorem c9_terminal_amended_witness :
    (start_interview oracle0 { sampleSession with state := .CANCELLED }).1 =
      { sampleSession with state := .CANCELLED } ∧
    ((process_response oracle0 { sampleSession with state := .CANCELLED }
        "ok").1).evaluations =
      ({ sampleSession with state := .CANCELLED } : Session).evaluations ∧
    ((process_response oracle0 { sampleSession with state := .CANCELLED }
        "ok").1).questions_asked =
      ({ sampleSession with state := .CANCELLED } : Session).questions_asked :=
  have h := c9_terminal_amended oracle0 { sampleSession with state := .CANCELLED }
    "ok" none (Or.inr rfl)
  ⟨by rw [h.1], h.2.2.2.2.2.1, h.2.2.2.2.1⟩


/-! ## Call traces (claims C3 and C4) -/

theorem statesList_head (s : Session) (ops : List Op) :
    (statesList s ops).head? = some s := by
  cases ops <;> rfl

/-- No controller operation ever changes `questions_asked`,
`current_topic_index` or `preplanned_topics`: every mutating path dies at
a `_log_llm_call` raise first. -/
theorem runOp_counters (s : Session) (op : Op) :
    (runOp s op).questions_asked = s.questions_asked ∧
    (runOp s op).current_topic_index = s.current_topic_index ∧
    (runOp s op).preplanned_topics = s.preplanned_topics := by
  cases op with
  | start o =>
    simp only [runOp]
    obtain ⟨hqa, hidx, htop, -, -, -, -, -⟩ := start_interview_fields o s
    exact ⟨hqa, hidx, htop⟩
  | respond o text =>
    simp only [runOp]
    obtain ⟨hqa, -, -, hidx, htop, -, -, -, -, -⟩ :=
      process_response_fields o s text
    exact ⟨hqa, hidx, htop⟩
  | endEarly o r =>
    simp only [runOp]
    exact end_interview_early_fields o s r

/-- Along any call trace the question counter, the topic pointer and the
topic plan are constant. -/
theorem statesList_counters (ops : List Op) : ∀ s : Session,
    ∀ st ∈ statesList s ops,
      st.questions_asked = s.questions_asked ∧
      st.current_topic_index = s.current_topic_index ∧
      st.preplanned_topics = s.preplanned_topics := by
  induction ops with
  | nil =>
    intro s st hst
    simp only [statesList, List.mem_singleton] at hst
    subst hst
    exact ⟨rfl, rfl, rfl⟩
  | cons op rest ih =>
    intro s st hst
    simp only [statesList, List.mem_cons] at hst
    rcases hst with h | h
    · subst h
      exact ⟨rfl, rfl, rfl⟩
    · obtain ⟨hqa, hidx, htop⟩ := ih (runOp s op) st h
      obtain ⟨rqa, ridx, rtop⟩ := runOp_counters s op
      exact ⟨hqa.trans rqa, hidx.trans ridx, htop.trans rtop⟩

theorem statesList_chain_qa (ops : List Op) : ∀ s : Session,
    List.Chain' (fun a b => a.questions_asked ≤ b.questions_asked)
      (statesList s ops) := by
  induction ops with
  | nil =>
    intro s
    simp [statesList]
  | cons op rest ih =>
    intro s
    show List.Chain' _ (s :: statesList (runOp s op) rest)
    rw [List.chain'_cons']
    refine ⟨?_, ih (runOp s op)⟩
    intro b hb
    rw [statesList_head, Option.mem_some_iff] at hb
    subst hb
    exact le_of_eq (runOp_counters s op).1.symm

theorem statesList_chain_idx (ops : List Op) : ∀ s : Session,
    List.Chain' (fun a b => a.current_topic_index ≤ b.current_topic_index)
      (statesList s ops) := by
  induction ops with
  | nil =>
    intro s
    simp [statesList]
  | cons op rest ih =>
    intro s
    show List.Chain' _ (s :: statesList (runOp s op) rest)
    rw [List.chain'_cons']
    refine ⟨?_, ih (runOp s op)⟩
    intro b hb
    rw [statesList_head, Option.mem_some_iff] at hb
    subst hb
    exact le_of_eq (runOp_counters s op).2.1.symm

/-- C3: across any sequence of `start_interview`, `process_response` and
`end_interview_early` calls from a fresh session, `questions_asked` is
non-decreasing, and `questions_asked ≤ max_questions` (the policy value,
default 10) holds at every intermediate state — whatever the policy.  In
the source both facts hold because the counter is never mutated at all:
every path that would set it (`questions_asked = 1` in `start_interview`)
or increment it (the installation tail of `process_response`) first
evaluates a `_log_llm_call` whose shifted arguments raise `AttributeError`
(the C5 bug), so the counter stays 0; the bound then holds after every
increment vacuously, and the generation-call re-checks the claim describes
guard dead code. -/
theorem c3_question_bound_holds (job : Option Job) (ops : List Op) :
    List.Chain' (fun a b => a.questions_asked ≤ b.questions_asked)
      (statesList (initialSession job) ops) ∧
    ∀ st ∈ statesList (initialSession job) ops,
      st.questions_asked ≤ getMaxQuestions job := by
  refine ⟨statesList_chain_qa ops (initialSession job), ?_⟩
  intro st hst
  have h := (statesList_counters ops (initialSession job) st hst).1
  rw [h]
  exact Nat.zero_le _

/-- C4: across any sequence of controller calls from a fresh session,
`current_topic_index` is non-decreasing and never exceeds
`len(preplanned_topics)`, and every `process_response` step that changes
`current_topic_index` increments it by exactly one and resets
`followups_for_current` to 0 in the same step.  In the source the pointer
and the plan are never mutated at all: `start_interview` raises at the
greeting log before `_generate_preplan` installs any plan, and
`process_response` raises at the evaluate log before the
MOVE_TO_NEXT_QUESTION branch that increments the pointer — so the bound is
preserved from the fresh session (0 ≤ 0), the chain is constant, and the
reset clause holds with the pointer always unchanged. -/
theorem c4_topic_index_invariant_holds (job : Option Job) (ops : List Op) :
    (∀ st ∈ statesList (initialSession job) ops,
      st.current_topic_index ≤ st.preplanned_topics.length) ∧
    List.Chain' (fun a b => a.current_topic_index ≤ b.current_topic_index)
      (statesList (initialSession job) ops) ∧
    ∀ (o : Oracle) (x : Session) (text : String),
      ((process_response o x text).1).current_topic_index =
          x.current_topic_index ∨
        (((process_response o x text).1).current_topic_index =
            x.current_topic_index + 1 ∧
          ((process_response o x text).1).followups_for_current = 0) := by
  refine ⟨?_, statesList_chain_idx ops (initialSession job), ?_⟩
  · intro st hst
    obtain ⟨-, hidx, htop⟩ := statesList_counters ops (initialSession job) st hst
    rw [hidx, htop]
    exact Nat.le_refl _
  · intro o x text
    exact Or.inl (process_response_fields o x text).2.2.2.1

end InterviewBot
